import Mathlib

/-!
Shallow embedding of the `ws` workspace build orchestrator's setuptools
backend (`src/wst/builder/setuptools.py`), together with models of the
external services it calls (`merge_var`, `call_build`, `rmtree`,
`DEFAULT_TARGETS`, `WSError`), which live in repository modules outside
`src/` and are therefore modelled from the specification's contracts.

The environment is an ordered mapping from variable names to lists of
path entries, following the spec's design note that the merge helper's
append-unique-preserve-order contract be a pure function on lists.
-/

/-- An ordered mapping from environment-variable names to the ordered list
of path entries held by that variable (the spec's Environment data model:
an ordered mapping, mutated in place by each backend's env hook). -/
abbrev Env := List (String × List String)

/-- Look up a variable in the environment (first binding wins, as in a
Python dict where keys are unique). -/
def envGet : Env → String → Option (List String)
  | [], _ => none
  | (k, v) :: rest, name => if k = name then some v else envGet rest name

/-- Set a variable in the environment, updating the existing binding in
place (preserving its position, as Python dict assignment does) or
appending a new binding at the end. -/
def envSet : Env → String → List String → Env
  | [], name, v => [(name, v)]
  | (k, w) :: rest, name, v =>
      if k = name then (name, v) :: rest else (k, w) :: envSet rest name v

/-- Modelled from the spec: the append-unique-preserve-order merge on
path lists, the pure core of the external `merge_var` helper ("combining a
new value into an existing path-like variable without removing or
reordering prior entries and without duplication"). -/
def mergeList (existing vals : List String) : List String :=
  vals.foldl (fun acc v => if v ∈ acc then acc else acc ++ [v]) existing

/-- Modelled from the spec: `merge_var(environment, name, values)` from
`wst.conf` (not under `src/`), with "append-unique-preserve-order
semantics for path-like variables"; an absent variable is treated as
holding no entries. -/
def merge_var (e : Env) (name : String) (vals : List String) : Env :=
  envSet e name (mergeList ((envGet e name).getD []) vals)

/-- Boolean test that `pre` is an initial segment of `s`, working on the
underlying character lists so that concrete instances evaluate. -/
def strStarts (pre s : String) : Bool :=
  List.isPrefixOf pre.data s.data

/-- Boolean test that `suf` is a final segment of `s`. -/
def strEnds (suf s : String) : Bool :=
  List.isPrefixOf suf.data.reverse s.data.reverse

/-- Model of Python's `os.path.join(a, b)` for POSIX paths: an absolute
second component discards the first; otherwise the components are joined
with a single separator. -/
def osPathJoin (a b : String) : String :=
  if strStarts "/" b then b
  else if a = "" || strEnds "/" a then a ++ b
  else a ++ "/" ++ b

/-- The search-path entry the setuptools backend computes for a given
prefix: `os.path.join(prefix, cls._SITE_PACKAGES_DIR)`. The site-packages
subpath `site` is the process-wide constant `_SITE_PACKAGES_DIR`
(obtained from `sysconfig`, external to the repository; the spec
describes it as a fixed relative subpath determined once per process),
passed here as an explicit parameter. -/
def pythonPath (site pfx : String) : String :=
  osPathJoin pfx site

/-- `SetuptoolsBuilder.env(proj, prefix, build_dir, env)`: computes the
site-packages path under the prefix and merges it into `PYTHONPATH` via
`merge_var`. `site` is the process-wide `_SITE_PACKAGES_DIR` constant. -/
def SetuptoolsBuilder.env (site proj pfx bd : String) (e : Env) : Env :=
  merge_var e "PYTHONPATH" [pythonPath site pfx]

/-- Modelled from the spec: the workspace-level error type `WSError`
(declared in the `wst` package outside `src/`), carrying a human-readable
message. -/
structure WSError where
  msg : String
deriving DecidableEq

/-- Modelled from the spec: the `DEFAULT_TARGETS` sentinel (declared in
the `wst` package outside `src/`), meaning "let the backend build whatever
it normally builds"; only its identity under equality comparison matters
to the backend. -/
def DEFAULT_TARGETS : List String := ["default"]

/-- A recorded subprocess invocation: the argument vector, the working
directory, and the environment passed to the external `call_build`
service. -/
structure Invocation where
  cmd : List String
  cwd : String
  env : Env
deriving DecidableEq

/-- The observable outcome of a `build` call: the returned value or the
raised `WSError`, the list of subprocess invocations performed (the
external `call_build` service is modelled as a boolean oracle on
invocations), and the environment mapping after the call. -/
structure BuildOutcome where
  result : Except WSError Bool
  invocations : List Invocation
  finalEnv : Env

/-- The error message `build` formats when a non-default target set is
requested ('pip3 does not support alternate build targets but "%s" was
specified for targets' with the targets value interpolated). -/
def targetsErrMsg (targets : Option (List String)) : String :=
  "pip3 does not support alternate build targets but \"" ++ toString targets
    ++ "\" was specified for targets"

/-- The pip3 command `build` constructs:
`['pip3', 'install', '--prefix=<prefix>', '--build=<build_dir>']`
extended with the caller's extra arguments and a final `'.'`. -/
def pipCmd (pfx bd : String) (args : List String) : List String :=
  ["pip3", "install", "--prefix=" ++ pfx, "--build=" ++ bd] ++ args ++ ["."]

/-- `SetuptoolsBuilder.build(proj, prefix, source_dir, build_dir, env,
targets, args)`: raises `WSError` when `targets` is neither `None` nor
`DEFAULT_TARGETS`; otherwise constructs the pip3 command and runs it via
`call_build` (modelled by the oracle `cb`) with `source_dir` as working
directory and the accumulated environment, returning its boolean. -/
def SetuptoolsBuilder.build (cb : Invocation → Bool) (proj pfx sd bd : String)
    (e : Env) (targets : Option (List String)) (args : List String) :
    BuildOutcome :=
  if targets ≠ none ∧ targets ≠ some DEFAULT_TARGETS then
    { result := Except.error ⟨targetsErrMsg targets⟩
      invocations := []
      finalEnv := e }
  else
    let inv : Invocation := ⟨pipCmd pfx bd args, sd, e⟩
    { result := Except.ok (cb inv)
      invocations := [inv]
      finalEnv := e }

/-- `SetuptoolsBuilder.conf(proj, prefix, source_dir, build_dir, env,
build_type, args)`: setuptools has no configure step; the body is a bare
`return True`, so the outcome is success with no invocations and the
environment untouched. -/
def SetuptoolsBuilder.conf (proj pfx sd bd : String) (e : Env)
    (build_type : String) (args : List String) :
    Bool × List Invocation × Env :=
  (true, [], e)

/-- A filesystem modelled as the list of existing paths. -/
abbrev FS := List String

/-- Boolean test that path `q` lies in the tree rooted at `root` (it is
`root` itself or strictly below it). -/
def strUnder (root q : String) : Bool :=
  (q == root) || strStarts (root ++ "/") q

/-- Modelled from the spec: the external `rmtree` filesystem service from
`wst.shell` (not under `src/`), with recursive-remove-if-exists contract:
every path in the tree rooted at `path` is removed, and an absent tree is
left alone. -/
def rmtree (fs : FS) (path : String) : FS :=
  fs.filter (fun q => !(strUnder path q))

/-- `SetuptoolsBuilder.clean(proj, prefix, source_dir, build_dir, env)`:
removes the whole `build_dir` tree via `rmtree`. -/
def SetuptoolsBuilder.clean (proj pfx sd bd : String) (e : Env) (fs : FS) :
    FS :=
  rmtree fs bd

/-- Running the `env` hooks of a sequence of projects, each given as
`(proj, prefix, build_dir)`, in order against one shared environment. -/
def runEnvs (site : String) (ps : List (String × String × String))
    (e : Env) : Env :=
  ps.foldl (fun acc q => SetuptoolsBuilder.env site q.1 q.2.1 q.2.2 acc) e

/-- The list of entries currently held by `PYTHONPATH` in an
environment, empty when the variable is absent. -/
def ppEntries (e : Env) : List String :=
  (envGet e "PYTHONPATH").getD []

/-- Boolean discriminator for a `build` outcome that raised the
workspace error. -/
def resultErrored (o : BuildOutcome) : Bool :=
  match o.result with
  | Except.error _ => true
  | Except.ok _ => false

theorem envGet_envSet_self (e : Env) (k : String) (v : List String) :
    envGet (envSet e k v) k = some v := by
  induction e with
  | nil => simp [envSet, envGet]
  | cons hd tl ih =>
      obtain ⟨k', w⟩ := hd
      by_cases h : k' = k
      · simp [envSet, envGet, h]
      · simp [envSet, envGet, h, ih]

theorem envGet_envSet_ne (e : Env) (k k' : String) (v : List String)
    (h : k' ≠ k) : envGet (envSet e k v) k' = envGet e k' := by
  have hne : ¬k = k' := fun hh => h (Eq.symm hh)
  induction e with
  | nil => simp [envSet, envGet, hne]
  | cons hd tl ih =>
      obtain ⟨k0, w⟩ := hd
      by_cases h0 : k0 = k
      · subst h0
        simp [envSet, envGet, hne]
      · simp [envSet, envGet, h0, ih]

theorem mem_mergeList_left (a : String) (xs ys : List String)
    (h : a ∈ xs) : a ∈ mergeList xs ys := by
  induction ys generalizing xs with
  | nil => simpa [mergeList] using h
  | cons y ys ih =>
      show a ∈ mergeList (if y ∈ xs then xs else xs ++ [y]) ys
      apply ih
      by_cases hy : y ∈ xs
      · simpa [hy] using h
      · simp [hy, h]

theorem mem_mergeList_single (a : String) (xs : List String) :
    a ∈ mergeList xs [a] := by
  by_cases h : a ∈ xs
  · simp [mergeList, h]
  · simp [mergeList, h]

theorem ppEntries_env (site proj pfx bd : String) (e : Env) :
    ppEntries (SetuptoolsBuilder.env site proj pfx bd e) =
      mergeList (ppEntries e) [pythonPath site pfx] := by
  simp [ppEntries, SetuptoolsBuilder.env, merge_var, envGet_envSet_self]

theorem mem_ppEntries_env (a site proj pfx bd : String) (e : Env)
    (h : a ∈ ppEntries e) :
    a ∈ ppEntries (SetuptoolsBuilder.env site proj pfx bd e) := by
  rw [ppEntries_env]
  exact mem_mergeList_left a _ _ h

theorem own_mem_ppEntries_env (site proj pfx bd : String) (e : Env) :
    pythonPath site pfx ∈ ppEntries (SetuptoolsBuilder.env site proj pfx bd e) := by
  rw [ppEntries_env]
  exact mem_mergeList_single _ _

theorem mem_ppEntries_runEnvs (a site : String)
    (ps : List (String × String × String)) (e : Env)
    (h : a ∈ ppEntries e) : a ∈ ppEntries (runEnvs site ps e) := by
  induction ps generalizing e with
  | nil => simpa [runEnvs] using h
  | cons q ps ih =>
      have h1 := mem_ppEntries_env a site q.1 q.2.1 q.2.2 e h
      simpa [runEnvs] using ih _ h1

theorem strStarts_iff (a s : String) : strStarts a s = true ↔ a.data <+: s.data := by
  simp [strStarts]

/-- C1: for every prefix `pfx`, the setuptools backend's `env` merges into
the shared environment's PYTHONPATH exactly the entry
`os.path.join pfx site`, where `site` is the fixed, prefix-independent
`_SITE_PACKAGES_DIR` subpath determined once per process; and (with `site`
relative, as the spec describes it) that entry is a path located under
`pfx` (it has `pfx` as an initial segment). -/
theorem env_merges_site_path_under_pfx (site proj pfx bd : String) (e : Env)
    (hrel : strStarts "/" site = false) :
    SetuptoolsBuilder.env site proj pfx bd e
        = merge_var e "PYTHONPATH" [osPathJoin pfx site]
      ∧ strStarts pfx (pythonPath site pfx) = true := by
  refine ⟨rfl, ?_⟩
  rw [strStarts_iff]
  unfold pythonPath osPathJoin
  rw [hrel]
  by_cases he : (pfx = "" || strEnds "/" pfx) = true
  · simp only [he, Bool.false_eq_true, if_false, if_true]
    exact ⟨site.data, rfl⟩
  · simp only [he, Bool.false_eq_true, if_false]
    refine ⟨("/" ++ site).data, ?_⟩
    simp [List.append_assoc]

/-- Witness for C1 at a concrete relative site subpath and prefix. -/
theorem env_merges_site_path_under_pfx_witness :
    SetuptoolsBuilder.env "lib/python3.7/site-packages" "proj" "/ws" "/b" []
        = merge_var [] "PYTHONPATH" [osPathJoin "/ws" "lib/python3.7/site-packages"]
      ∧ strStarts "/ws" (pythonPath "lib/python3.7/site-packages" "/ws") = true :=
  env_merges_site_path_under_pfx "lib/python3.7/site-packages" "proj" "/ws" "/b" []
    (by decide)

/-- C6: `conf` returns success unconditionally, performs no subprocess
invocation, and leaves the environment mapping untouched, for every
input. -/
theorem conf_returns_true_no_effects (proj pfx sd bd : String) (e : Env)
    (build_type : String) (args : List String) :
    SetuptoolsBuilder.conf proj pfx sd bd e build_type args = (true, [], e) :=
  rfl

/-- C7: when `build_dir` does not exist (no path in the filesystem lies in
its tree), `clean` returns with the filesystem unchanged: nothing is
removed and the directory is not created, under the modelled
recursive-remove-if-exists contract of `rmtree`. -/
theorem clean_absent_build_dir_noop (proj pfx sd bd : String) (e : Env)
    (fs : FS) (h : ∀ q ∈ fs, strUnder bd q = false) :
    SetuptoolsBuilder.clean proj pfx sd bd e fs = fs := by
  unfold SetuptoolsBuilder.clean rmtree
  apply List.filter_eq_self.mpr
  intro q hq
  simp [h q hq]

/-- Witness for C7 at a concrete filesystem not containing the build
directory. -/
theorem clean_absent_build_dir_noop_witness :
    SetuptoolsBuilder.clean "proj" "/p" "/s" "/b" [] ["/a/file"] = ["/a/file"] :=
  clean_absent_build_dir_noop "proj" "/p" "/s" "/b" [] ["/a/file"] (by decide)

/-- C10: `env` mutates at most PYTHONPATH: every other variable maps to
the same value (including absence) before and after the call. -/
theorem env_frames_other_vars (site proj pfx bd : String) (e : Env)
    (k : String) (h : k ≠ "PYTHONPATH") :
    envGet (SetuptoolsBuilder.env site proj pfx bd e) k = envGet e k := by
  unfold SetuptoolsBuilder.env merge_var
  exact envGet_envSet_ne e "PYTHONPATH" k _ h

/-- Witness for C10 at a concrete environment holding an unrelated
variable. -/
theorem env_frames_other_vars_witness :
    envGet (SetuptoolsBuilder.env "sp" "proj" "/p" "/b" [("HOME", ["/home"])])
        "HOME"
      = envGet [("HOME", ["/home"])] "HOME" :=
  env_frames_other_vars "sp" "proj" "/p" "/b" [("HOME", ["/home"])] "HOME"
    (by decide)

/-- C2: for every `targets` value that is neither `None` nor the
`DEFAULT_TARGETS` sentinel, `build` raises the workspace error, performs
no subprocess invocation, and leaves the environment unchanged. -/
theorem build_nondefault_targets_errors (cb : Invocation → Bool)
    (proj pfx sd bd : String) (e : Env) (targets : Option (List String))
    (args : List String) (h1 : targets ≠ none)
    (h2 : targets ≠ some DEFAULT_TARGETS) :
    SetuptoolsBuilder.build cb proj pfx sd bd e targets args =
      { result := Except.error ⟨targetsErrMsg targets⟩
        invocations := []
        finalEnv := e } := by
  unfold SetuptoolsBuilder.build
  rw [if_pos ⟨h1, h2⟩]

/-- Witness for C2 at the concrete non-default target set `["docs"]`. -/
theorem build_nondefault_targets_errors_witness :
    SetuptoolsBuilder.build (fun _ => true) "proj" "/p" "/s" "/b" []
        (some ["docs"]) [] =
      { result := Except.error ⟨targetsErrMsg (some ["docs"])⟩
        invocations := []
        finalEnv := [] } :=
  build_nondefault_targets_errors (fun _ => true) "proj" "/p" "/s" "/b" []
    (some ["docs"]) [] (by decide) (by decide)

/-- Counterexample to C3 as stated: at prefix "/p", source directory "/s",
build directory "/b" and no extra arguments, the final positional argument
of the constructed command is "." and not the source directory "/s". -/
theorem build_final_arg_counterexample :
    ¬ ((SetuptoolsBuilder.build (fun _ => true) "proj" "/p" "/s" "/b" []
          none []).invocations.map (fun i => i.cmd.getLast?)
        = [some ("/s" : String)]) := by
  decide

/-- C3 (amended): with the default/absent target set, `build` constructs
exactly the command `['pip3', 'install', '--prefix=<prefix>',
'--build=<build_dir>']` followed by the extra arguments in order and the
final positional argument `'.'` — which denotes the source directory,
since the command is executed with the accumulated environment and
`source_dir` as working directory — and runs exactly that one
invocation. -/
theorem build_default_constructs_pip_invocation (cb : Invocation → Bool)
    (proj pfx sd bd : String) (e : Env) (targets : Option (List String))
    (args : List String)
    (h : targets = none ∨ targets = some DEFAULT_TARGETS) :
    SetuptoolsBuilder.build cb proj pfx sd bd e targets args =
      { result := Except.ok (cb
          ⟨["pip3", "install", "--prefix=" ++ pfx, "--build=" ++ bd]
            ++ args ++ ["."], sd, e⟩)
        invocations :=
          [⟨["pip3", "install", "--prefix=" ++ pfx, "--build=" ++ bd]
            ++ args ++ ["."], sd, e⟩]
        finalEnv := e } := by
  have hc : ¬(targets ≠ none ∧ targets ≠ some DEFAULT_TARGETS) := by
    rcases h with h | h <;> simp [h]
  unfold SetuptoolsBuilder.build
  rw [if_neg hc]
  rfl

/-- Witness for the amended C3 at concrete paths and one extra
argument. -/
theorem build_default_constructs_pip_invocation_witness :
    SetuptoolsBuilder.build (fun _ => true) "proj" "/p" "/s" "/b" [] none
        ["--verbose"] =
      { result := Except.ok true
        invocations :=
          [⟨["pip3", "install", "--prefix=/p", "--build=/b", "--verbose", "."],
            "/s", []⟩]
        finalEnv := [] } := by
  have h := build_default_constructs_pip_invocation (fun _ => true) "proj"
    "/p" "/s" "/b" [] none ["--verbose"] (Or.inl rfl)
  simpa using h

/-- C8: with the default/absent target set, `build` raises nothing and
returns exactly the boolean produced by the `call_build` service on the
constructed invocation, so a failing tool exit surfaces as a `False`
return value. -/
theorem build_returns_call_build_boolean (cb : Invocation → Bool)
    (proj pfx sd bd : String) (e : Env) (targets : Option (List String))
    (args : List String)
    (h : targets = none ∨ targets = some DEFAULT_TARGETS) :
    (SetuptoolsBuilder.build cb proj pfx sd bd e targets args).result =
      Except.ok (cb ⟨pipCmd pfx bd args, sd, e⟩) := by
  have hc : ¬(targets ≠ none ∧ targets ≠ some DEFAULT_TARGETS) := by
    rcases h with h | h <;> simp [h]
  unfold SetuptoolsBuilder.build
  rw [if_neg hc]

/-- Witness for C8: a tool that exits unsuccessfully yields the value
`Except.ok false`, not an error. -/
theorem build_returns_call_build_boolean_witness :
    (SetuptoolsBuilder.build (fun _ => false) "proj" "/p" "/s" "/b" [] none
        []).result = Except.ok false :=
  build_returns_call_build_boolean (fun _ => false) "proj" "/p" "/s" "/b" []
    none [] (Or.inl rfl)

/-- C9: `build` raises the workspace error exactly when `targets` is
neither `None` nor the `DEFAULT_TARGETS` sentinel, and passing the
sentinel explicitly behaves identically to passing `None`. -/
theorem build_errors_iff_nondefault_targets (cb : Invocation → Bool)
    (proj pfx sd bd : String) (e : Env) (targets : Option (List String))
    (args : List String) :
    (resultErrored (SetuptoolsBuilder.build cb proj pfx sd bd e targets args)
        = true
      ↔ (targets ≠ none ∧ targets ≠ some DEFAULT_TARGETS))
    ∧ SetuptoolsBuilder.build cb proj pfx sd bd e (some DEFAULT_TARGETS) args
        = SetuptoolsBuilder.build cb proj pfx sd bd e none args := by
  constructor
  · by_cases hc : targets ≠ none ∧ targets ≠ some DEFAULT_TARGETS
    · simp [SetuptoolsBuilder.build, hc, resultErrored]
    · simp [SetuptoolsBuilder.build, hc, resultErrored]
  · simp [SetuptoolsBuilder.build]

/-- C4: calling `env` twice with the same prefix on an initially-empty
environment leaves PYTHONPATH holding the computed search-path entry
exactly once. -/
theorem env_twice_single_entry (site proj pfx bd : String) :
    List.count (pythonPath site pfx)
      (ppEntries (SetuptoolsBuilder.env site proj pfx bd
        (SetuptoolsBuilder.env site proj pfx bd []))) = 1 := by
  have h1 : SetuptoolsBuilder.env site proj pfx bd []
      = [("PYTHONPATH", [pythonPath site pfx])] := by
    simp [SetuptoolsBuilder.env, merge_var, envGet, mergeList, envSet]
  have h2 : SetuptoolsBuilder.env site proj pfx bd
        [("PYTHONPATH", [pythonPath site pfx])]
      = [("PYTHONPATH", [pythonPath site pfx])] := by
    simp [SetuptoolsBuilder.env, merge_var, envGet, mergeList, envSet]
  rw [h1, h2]
  simp [ppEntries, envGet, List.count_cons]

/-- C5: across any sequence of projects whose `env` hooks run in order
against one shared environment, each project's contributed search-path
entry is present in the final environment (later `env` calls never
overwrite or remove it). -/
theorem env_contribution_persists (site : String)
    (ps : List (String × String × String)) (e0 : Env)
    (proj pfx bd : String) (h : (proj, pfx, bd) ∈ ps) :
    pythonPath site pfx ∈ ppEntries (runEnvs site ps e0) := by
  induction ps generalizing e0 with
  | nil => cases h
  | cons q ps ih =>
      have hstep : runEnvs site (q :: ps) e0
          = runEnvs site ps (SetuptoolsBuilder.env site q.1 q.2.1 q.2.2 e0) :=
        rfl
      rw [hstep]
      rcases List.mem_cons.mp h with hq | hq
      · subst hq
        exact mem_ppEntries_runEnvs _ _ _ _
          (own_mem_ppEntries_env site proj pfx bd e0)
      · exact ih _ hq

/-- Witness for C5: the first of two projects sharing one environment
still finds its entry after the second project's `env` call. -/
theorem env_contribution_persists_witness :
    pythonPath "sp" "/p1" ∈ ppEntries (runEnvs "sp"
      [("a", "/p1", "/b1"), ("c", "/p2", "/b2")] []) :=
  env_contribution_persists "sp" [("a", "/p1", "/b1"), ("c", "/p2", "/b2")]
    [] "a" "/p1" "/b1" (by decide)
